import Mathlib

/-!
# Verification of the profile-scraping subsystem

Shallow embedding of `app/routes/scraper.py` and `app/services/llm.py` of the
names-and-faces repository.  Pure text transforms (cleaners, regex matchers,
platform detection) are translated directly; network calls, the HTML parser
and library collaborators (`requests`, BeautifulSoup's DOM search,
`urllib.parse.urljoin`, `save_and_optimize`, the LLM endpoint) are modelled as
explicit inputs.  Python exceptions are modelled with `Except`: an exception a
`try` block of the source catches becomes a caught branch, an exception no
handler matches becomes an `Except.error` that the embedded function returns
(propagation).  All character-level operations model Python semantics on the
ASCII range handled by this subsystem.
-/

set_option maxRecDepth 100000
set_option maxHeartbeats 2000000

namespace NF

/-- Decidable equality for `Except`, used to evaluate modelled outcomes on
concrete inputs. -/
instance {α β : Type} [DecidableEq α] [DecidableEq β] : DecidableEq (Except α β) := fun a b =>
  match a, b with
  | .error x, .error y =>
    if h : x = y then isTrue (by rw [h]) else isFalse (fun hc => h (Except.error.inj hc))
  | .error _, .ok _ => isFalse (fun hc => Except.noConfusion hc)
  | .ok _, .error _ => isFalse (fun hc => Except.noConfusion hc)
  | .ok x, .ok y =>
    if h : x = y then isTrue (by rw [h]) else isFalse (fun hc => h (Except.ok.inj hc))

/-- Keyed lookup on association lists (Python `dict` access), kept
reduction-friendly for concrete evaluation. -/
def plookup {α : Type} (k : String) : List (String × α) → Option α
  | [] => none
  | (a, v) :: rest => if a = k then some v else plookup k rest

/-- Python whitespace (the regex class of backslash-s and the default
`str.strip` set) restricted to the ASCII range. -/
def pySpace (c : Char) : Bool :=
  c = ' ' || c = '\t' || c = '\n' || c = '\r' || c = '\x0b' || c = '\x0c'

/-- `str.lstrip()` on a character list. -/
def lstripL (l : List Char) : List Char := l.dropWhile pySpace

/-- `str.rstrip()` on a character list. -/
def rstripL (l : List Char) : List Char := (l.reverse.dropWhile pySpace).reverse

/-- `str.strip()` on a character list. -/
def stripL (l : List Char) : List Char := rstripL (lstripL l)

/-- `str.strip()`. -/
def pyStrip (s : String) : String := ⟨stripL s.data⟩

/-- ASCII `str.lower()`. -/
def lowerS (s : String) : String := ⟨s.data.map Char.toLower⟩

/-- Greedy run of regex whitespace. -/
def skipWs (l : List Char) : List Char := l.dropWhile pySpace

/-- `needle in haystack` on character lists. -/
def subL (needle : List Char) : List Char → Bool
  | [] => needle.isEmpty
  | c :: rest => needle.isPrefixOf (c :: rest) || subL needle rest

/-- Python `needle in hay` substring test. -/
def strContains (hay needle : String) : Bool := subL needle.data hay.data

/-- Python truthiness-based `a or b` for strings. -/
def pyOr (a b : String) : String := if a = "" then b else a

/-- `s.startswith(p)`, kept reduction-friendly. -/
def startsWithS (s p : String) : Bool := p.data.isPrefixOf s.data

/-- `s[n:]` (drop the first `n` characters), kept reduction-friendly. -/
def dropS (s : String) (n : Nat) : String := ⟨s.data.drop n⟩

/-- `s[:n]` (keep the first `n` characters), kept reduction-friendly. -/
def takeS (s : String) (n : Nat) : String := ⟨s.data.take n⟩

/-- Case-insensitive literal match: consumes `pat` (given lowercase) from the
head of the input, returning the rest. -/
def stripCI (pat : List Char) (l : List Char) : Option (List Char) :=
  match pat, l with
  | [], rest => some rest
  | _ :: _, [] => none
  | p :: ps, c :: cs => if c.toLower = p then stripCI ps cs else none

/-- Case-sensitive literal match consuming `pat` from the head of the input. -/
def stripLit (pat : List Char) (l : List Char) : Option (List Char) :=
  if pat.isPrefixOf l then some (l.drop pat.length) else none

/-- `"sep".join(parts)` on character lists. -/
def joinL (sep : List Char) : List (List Char) → List Char
  | [] => []
  | [x] => x
  | x :: y :: rest => x ++ sep ++ joinL sep (y :: rest)

/-- `desc.split("·")`: split on the middle dot, keeping empty pieces. -/
def splitDotAux : List Char → List Char → List (List Char)
  | [], acc => [acc.reverse]
  | '·' :: rest, acc => acc.reverse :: splitDotAux rest []
  | c :: rest, acc => splitDotAux rest (c :: acc)

/-- Global `re.sub(pattern, "", s)` for a matcher `m` that can never match the
empty string: scan left to right, drop each match, continue after it.  `fuel`
bounds the recursion (the input length suffices since every step consumes at
least one character). -/
def subAll (m : List Char → Option (List Char)) : Nat → List Char → List Char
  | 0, l => l
  | _ + 1, [] => []
  | fuel + 1, c :: rest =>
    match m (c :: rest) with
    | some r => subAll m fuel r
    | none => c :: subAll m fuel rest

/-- Matcher for one occurrence of
`\s*·\s*\d+\+?\s*connections?\s*` (IGNORECASE) at the head of the input,
returning the remainder on success (scraper.py line 90). -/
def matchConn (l : List Char) : Option (List Char) :=
  match skipWs l with
  | '·' :: r1 =>
    let r2 := skipWs r1
    let digits := r2.takeWhile Char.isDigit
    if digits.isEmpty then none
    else
      let r3 := r2.dropWhile Char.isDigit
      let r4 := match r3 with
        | '+' :: t => t
        | t => t
      match stripCI "connection".data (skipWs r4) with
      | some r6 =>
        let r7 := match r6 with
          | c :: t => if c = 's' || c = 'S' then t else c :: t
          | [] => []
        some (skipWs r7)
      | none => none
  | _ => none

/-- Does `\s*·\s*Connect\s*$` (IGNORECASE) match at the head of the input and
extend to the end of it (scraper.py line 91)?  The trailing greedy `\s*`
absorbs a final newline, which coincides with the `$` semantics. -/
def matchConnectEnd (l : List Char) : Bool :=
  match skipWs l with
  | '·' :: r1 =>
    match stripCI "connect".data (skipWs r1) with
    | some r2 => (skipWs r2).isEmpty
    | none => false
  | _ => false

/-- `re.sub(r"\s*·\s*Connect\s*$", "", s)`: the match must reach the end, so
the result is the prefix before the leftmost such match. -/
def subConnectEnd : Nat → List Char → List Char
  | 0, l => l
  | _ + 1, [] => []
  | fuel + 1, c :: rest =>
    if matchConnectEnd (c :: rest) then [] else c :: subConnectEnd fuel rest

/-- `re.match(r"^(Location|Connections):", part, re.IGNORECASE)` as a test. -/
def isLocConnLabel (l : List Char) : Bool :=
  (stripCI "location:".data l).isSome || (stripCI "connections:".data l).isSome

/-- `re.sub(r"^(Experience|Education|Location):\s*", "", part)`
(case-sensitive, anchored). -/
def stripFieldLabel (l : List Char) : List Char :=
  match stripLit "Experience:".data l with
  | some r => skipWs r
  | none =>
    match stripLit "Education:".data l with
    | some r => skipWs r
    | none =>
      match stripLit "Location:".data l with
      | some r => skipWs r
      | none => l

/-- The two boilerplate-removing substitutions at the start of
`_clean_linkedin_description` (scraper.py lines 90-91). -/
def linkedinBoilerplateStripped (desc : String) : List Char :=
  let d1 := subAll matchConn (desc.data.length + 1) desc.data
  subConnectEnd (d1.length + 1) d1

/-- The surviving segments of `_clean_linkedin_description` (lines 93-100):
split on the middle dot, strip, drop empties, drop label-only segments, strip
leading field labels, drop segments that became empty. -/
def linkedinCleanedParts (d2 : List Char) : List (List Char) :=
  let parts := ((splitDotAux d2 []).map stripL).filter (fun p => !p.isEmpty)
  parts.filterMap (fun part =>
    if isLocConnLabel part then none
    else
      let q := stripFieldLabel part
      if q.isEmpty then none else some q)

/-- `_clean_linkedin_description` (scraper.py lines 85-102). -/
def _clean_linkedin_description (desc : String) : String :=
  if desc = "" then ""
  else
    let d2 := linkedinBoilerplateStripped desc
    let cleaned_parts := linkedinCleanedParts d2
    if cleaned_parts.isEmpty then ⟨stripL d2⟩
    else ⟨joinL " · ".data cleaned_parts⟩

/-- `.*$` (DOTALL off): consume the rest of the current line; the match
succeeds iff that reaches the end of the input or a single final newline.
Returns the remainder left after the match (`[]`, or the kept final newline). -/
def restOfLineEnd (l : List Char) : Option (List Char) :=
  let rest := l.dropWhile (fun c => c ≠ '\n')
  match rest with
  | [] => some []
  | ['\n'] => some ['\n']
  | _ => none

/-- One occurrence of `\s*[|\-–—].*$` at the head of the input
(scraper.py line 72). -/
def matchDelimRest (l : List Char) : Option (List Char) :=
  match skipWs l with
  | c :: rest =>
    if c = '|' || c = '-' || c = '–' || c = '—' then restOfLineEnd rest else none
  | [] => none

/-- One occurrence of `\s*on (LinkedIn|Twitter|Facebook|X).*$` (IGNORECASE)
at the head of the input (scraper.py lines 73-75). -/
def matchOnPlatformRest (l : List Char) : Option (List Char) :=
  match stripCI "on ".data (skipWs l) with
  | some r1 =>
    let alt := ((stripCI "linkedin".data r1).orElse fun _ =>
      (stripCI "twitter".data r1).orElse fun _ =>
      (stripCI "facebook".data r1).orElse fun _ =>
      stripCI "x".data r1)
    match alt with
    | some r2 => restOfLineEnd r2
    | none => none
  | none => none

/-- First credential alternative of `(PhD|MD|MBA|CPA|PE|PMP|CFA|JD|Esq)`
matching at the head of the input (alternatives are mutually exclusive). -/
def matchCredAlt (l : List Char) : Option (List Char) :=
  (stripLit "PhD".data l).orElse fun _ =>
  (stripLit "MD".data l).orElse fun _ =>
  (stripLit "MBA".data l).orElse fun _ =>
  (stripLit "CPA".data l).orElse fun _ =>
  (stripLit "PE".data l).orElse fun _ =>
  (stripLit "PMP".data l).orElse fun _ =>
  (stripLit "CFA".data l).orElse fun _ =>
  (stripLit "JD".data l).orElse fun _ =>
  stripLit "Esq".data l

/-- One occurrence of `,\s*(PhD|MD|MBA|CPA|PE|PMP|CFA|JD|Esq)\.?.*$`
at the head of the input (scraper.py line 76). -/
def matchCredRest (l : List Char) : Option (List Char) :=
  match l with
  | ',' :: r0 =>
    match matchCredAlt (skipWs r0) with
    | some r2 =>
      let r3 := match r2 with
        | '.' :: t => t
        | t => t
      restOfLineEnd r3
    | none => none
  | _ => none

/-- Python `str.title()` on the ASCII range: the first letter of every
alphabetic run is uppercased and the rest lowered. -/
def pyTitleAux : Bool → List Char → List Char
  | _, [] => []
  | prevCased, c :: rest =>
    if c.isAlpha then
      (if prevCased then c.toLower else c.toUpper) :: pyTitleAux true rest
    else c :: pyTitleAux false rest

/-- `_clean_name` (scraper.py lines 68-82).  The `platform` argument is
accepted and ignored, as in the source. -/
def _clean_name (raw_name : String) (_platform : String) : String :=
  if raw_name = "" then ""
  else
    let n0 := stripL raw_name.data
    let n1 := subAll matchDelimRest (n0.length + 1) n0
    let n2 := subAll matchOnPlatformRest (n1.length + 1) n1
    let n3 := subAll matchCredRest (n2.length + 1) n2
    let n4 := stripL n3
    let n5 :=
      if n4 = n4.map Char.toLower || n4 = n4.map Char.toUpper then
        pyTitleAux false n4
      else n4
    ⟨n5⟩

/-- `_is_valid_profile_image` (scraper.py lines 105-116). -/
def _is_valid_profile_image (url : String) : Bool :=
  if url = "" then false
  else
    let lower := lowerS url
    if strContains lower "/aero-v1/sc/h/" then false
    else if strContains lower "ghost" || strContains lower "default" then false
    else if strContains lower "placeholder" || strContains lower "no-photo" ||
        strContains lower "no_photo" then false
    else true

/-- `_detect_platform` (scraper.py lines 52-62). -/
def _detect_platform (url : String) : String :=
  let url_lower := lowerS url
  if strContains url_lower "linkedin.com" then "linkedin"
  else if strContains url_lower "twitter.com" || strContains url_lower "x.com" then "twitter"
  else if strContains url_lower "instagram.com" then "instagram"
  else if strContains url_lower "facebook.com" || strContains url_lower "fb.com" then "facebook"
  else "other"

/-- Python `str.replace(pat, rep)` (all non-overlapping occurrences, left to
right) for a non-empty pattern.  `fuel` bounds the scan. -/
def replaceL (pat rep : List Char) : Nat → List Char → List Char
  | 0, l => l
  | _ + 1, [] => []
  | fuel + 1, c :: rest =>
    if pat.isPrefixOf (c :: rest) then
      rep ++ replaceL pat rep fuel ((c :: rest).drop pat.length)
    else c :: replaceL pat rep fuel rest

/-- Python `s.replace(pat, rep)`. -/
def pyReplace (s pat rep : String) : String :=
  ⟨replaceL pat.data rep.data (s.data.length + 1) s.data⟩

/-- `[A-Za-z0-9_]`, the regex word character on the ASCII range. -/
def isWordChar (c : Char) : Bool := c.isAlphanum || c = '_'

/-- Does `\s*\(@\w+\)` match at the head of the input?  (The tail of the
display-name pattern of scraper.py lines 312 and 337.) -/
def handleTailOk (l : List Char) : Bool :=
  match skipWs l with
  | '(' :: '@' :: r =>
    let w := r.takeWhile isWordChar
    !w.isEmpty &&
      (match r.drop w.length with
       | ')' :: _ => true
       | _ => false)
  | _ => false

/-- `re.match(r"^(.+?)\s*\(@\w+\)", raw)`: the lazy group takes the shortest
non-empty newline-free prefix whose suffix starts with `\s*\(@\w+\)`.
Returns group 1.  `acc` holds the consumed prefix reversed. -/
def matchNameHandleAux (acc : List Char) : List Char → Option (List Char)
  | [] => none
  | c :: rest =>
    if c = '\n' then none
    else if handleTailOk rest then some (c :: acc).reverse
    else matchNameHandleAux (c :: acc) rest

/-- Group 1 of `re.match(r"^(.+?)\s*\(@\w+\)", raw)`, when the pattern
matches. -/
def matchNameHandle (l : List Char) : Option (List Char) :=
  matchNameHandleAux [] l

/-- `(?:twitter\.com|x\.com)/([A-Za-z0-9_]+)` at the head of the input,
returning group 1 (scraper.py line 500). -/
def twMatchAt (l : List Char) : Option (List Char) :=
  match stripLit "twitter.com/".data l with
  | some r => (let h := r.takeWhile isWordChar; if h.isEmpty then none else some h)
  | none =>
    match stripLit "x.com/".data l with
    | some r => (let h := r.takeWhile isWordChar; if h.isEmpty then none else some h)
    | none => none

/-- `re.search` for the twitter-handle pattern: group 1 of the leftmost
match. -/
def twitterHandleSearch : List Char → Option (List Char)
  | [] => none
  | c :: rest =>
    match twMatchAt (c :: rest) with
    | some h => some h
    | none => twitterHandleSearch rest

/-! ## Parsed-document model

BeautifulSoup values are modelled structurally: a tag is its attribute
mapping (an attribute value is a string or a list of strings, as BeautifulSoup
returns), and a document carries the pieces of the parse tree the scrapers
consult.  The DOM searches the source performs (`find_all("meta")`,
`find("title")`, `find_all("img")`, the h1/h2 walk, `get_text`, `str(soup)`,
and the "Contact info"/six-ancestors/`find_all("p")` walk of
`_extract_linkedin_profile_text`) are modelled as the corresponding
components of `Doc`, in document order. -/

/-- A BeautifulSoup attribute value: a string or a multi-valued attribute. -/
inductive PyVal
  | str (s : String)
  | lst (l : List String)
deriving DecidableEq

/-- A tag, reduced to its attribute mapping. -/
structure STag where
  attrs : List (String × PyVal)
deriving DecidableEq

/-- `tag.get(attr, "")`: a missing attribute yields the (falsy) empty
string. -/
def tagGet (t : STag) (a : String) : PyVal :=
  (plookup a t.attrs).getD (PyVal.str "")

/-- `_meta_attr` (scraper.py lines 26-31). -/
def _meta_attr (tag : STag) (attr : String) : String :=
  match tagGet tag attr with
  | .lst l =>
    match l with
    | [] => ""
    | x :: _ => x
  | .str s => s

/-- The parsed page, as consumed by the scrapers. -/
structure Doc where
  /-- `soup.find_all("meta")` in document order. -/
  metas : List STag := []
  /-- `soup.find("title")`: its text when a title tag exists. -/
  titleTag : Option String := none
  /-- `soup.find_all("img")` in document order. -/
  imgs : List STag := []
  /-- The texts (`get_text(strip=True)`) of the h1/h2 tags in document
  order. -/
  headings : List String := []
  /-- `soup.get_text(separator="\n", strip=True)`. -/
  pageText : String := ""
  /-- `str(soup)`, the raw page markup scanned by
  `_extract_linkedin_photo_url`. -/
  rawHtml : String := ""
  /-- The stripped texts of the `<p>` tags found inside the six-levels-up
  ancestor of the "Contact info" text node, when that node exists and the
  ancestor is a tag; `none` models the early-return cases of
  `_extract_linkedin_profile_text` (lines 193-203). -/
  contactPs : Option (List String) := none
deriving DecidableEq

/-- Dictionary update, last-standing-wins (Python `d[k] = v`). -/
def dinsert (d : List (String × String)) (k v : String) : List (String × String) :=
  if d.any (fun p => p.1 = k) then d.map (fun p => if p.1 = k then (k, v) else p)
  else d ++ [(k, v)]

/-- `d.get(k, "")` — and since an absent key and a `None`/empty value are
equally falsy at every use site, also `d.get(k)` under truthiness. -/
def dget (d : List (String × String)) (k : String) : String :=
  (plookup k d).getD ""

/-- `_extract_og_tags` (scraper.py lines 34-40). -/
def _extract_og_tags (doc : Doc) : List (String × String) :=
  doc.metas.foldl (fun og meta =>
    let prop := pyOr (_meta_attr meta "property") (_meta_attr meta "name")
    if startsWithS prop "og:" then dinsert og (dropS prop 3) (_meta_attr meta "content")
    else og) []

/-- `_extract_twitter_tags` (scraper.py lines 43-49). -/
def _extract_twitter_tags (doc : Doc) : List (String × String) :=
  doc.metas.foldl (fun tw meta =>
    let nm := pyOr (_meta_attr meta "name") (_meta_attr meta "property")
    if startsWithS nm "twitter:" then dinsert tw (dropS nm 8) (_meta_attr meta "content")
    else tw) []

/-! ## LinkedIn photo-URL extraction (scraper.py lines 245-263) -/

/-- `[A-Za-z0-9_-]`. -/
def rootCharOk (c : Char) : Bool := c.isAlphanum || c = '_' || c = '-'

/-- The root pattern
`https://media\.licdn\.com/dms/image/v2/[A-Za-z0-9_-]+/profile-displayphoto-`
matched at the head of the input; returns the matched text. -/
def matchRoot (l : List Char) : Option (List Char) :=
  match stripLit "https://media.licdn.com/dms/image/v2/".data l with
  | some r1 =>
    let mid := r1.takeWhile rootCharOk
    if mid.isEmpty then none
    else
      match stripLit "/profile-displayphoto-".data (r1.drop mid.length) with
      | some _ => some ("https://media.licdn.com/dms/image/v2/".data ++ mid ++
          "/profile-displayphoto-".data)
      | none => none
  | none => none

/-- `re.findall(root_pattern, html)[0]`: the leftmost root match. -/
def findFirstRoot : List Char → Option (List Char)
  | [] => none
  | c :: rest =>
    match matchRoot (c :: rest) with
    | some m => some m
    | none => findFirstRoot rest

/-- The character class `[^"\\<>\s]` of the size-suffix pattern. -/
def sfxCharOk (c : Char) : Bool :=
  !(c = '"' || c = '\\' || c = '<' || c = '>' || pySpace c)

/-- Greedy `(?:\\u0026[^"\\<>\s]+)*`: each iteration needs the literal
six-character sequence backslash-u-0-0-2-6 followed by at least one class
character. -/
def sfxRepeats : Nat → List Char → List Char
  | 0, _ => []
  | fuel + 1, l =>
    match stripLit "\\u0026".data l with
    | some r =>
      let seg := r.takeWhile sfxCharOk
      if seg.isEmpty then []
      else "\\u0026".data ++ seg ++ sfxRepeats fuel (r.drop seg.length)
    | none => []

/-- The captured group `(/[^"\\<>\s]+(?:\\u0026[^"\\<>\s]+)*)` matched at the
head of the input. -/
def matchSfxGroup (l : List Char) : Option (List Char) :=
  match l with
  | '/' :: r =>
    let first := r.takeWhile sfxCharOk
    if first.isEmpty then none
    else some ('/' :: (first ++ sfxRepeats r.length (r.drop first.length)))
  | _ => none

/-- `re.findall(rf"shrink_{size}(...)", html)[0]`: group 1 of the leftmost
match of the size-suffix pattern. -/
def findFirstSfx (size : String) : List Char → Option (List Char)
  | [] => none
  | c :: rest =>
    match stripLit ("shrink_" ++ size).data (c :: rest) with
    | some r =>
      match matchSfxGroup r with
      | some g => some g
      | none => findFirstSfx size rest
    | none => findFirstSfx size rest

/-- Numeric value of one hexadecimal digit, either case. -/
def hexVal (c : Char) : Option Nat :=
  if c.isDigit then some (c.toNat - 48)
  else
    let lo := c.toLower
    if 'a' ≤ lo && lo ≤ 'f' then some (lo.toNat - 87) else none

/-- `full_url.encode("utf-8").decode("unicode_escape")` for the escape forms
that can occur in a matched URL: the suffix pattern's character class
excludes the backslash, so every backslash stands at the head of a
`\u0026`-style unit; common single-character escapes are also decoded, and a
backslash starting no recognized escape is kept, as the codec keeps it. -/
def unicodeUnescape : Nat → List Char → List Char
  | 0, l => l
  | _ + 1, [] => []
  | fuel + 1, '\\' :: rest =>
    (match rest with
     | 'u' :: a :: b :: c :: d :: r2 =>
       match hexVal a, hexVal b, hexVal c, hexVal d with
       | some x1, some x2, some x3, some x4 =>
         Char.ofNat (((x1 * 16 + x2) * 16 + x3) * 16 + x4) :: unicodeUnescape fuel r2
       | _, _, _, _ => '\\' :: unicodeUnescape fuel rest
     | 'n' :: r2 => '\n' :: unicodeUnescape fuel r2
     | 't' :: r2 => '\t' :: unicodeUnescape fuel r2
     | 'r' :: r2 => '\r' :: unicodeUnescape fuel r2
     | '\\' :: r2 => '\\' :: unicodeUnescape fuel r2
     | _ => '\\' :: unicodeUnescape fuel rest)
  | fuel + 1, c :: rest => c :: unicodeUnescape fuel rest

/-- The size-preference loop of `_extract_linkedin_photo_url`
(lines 254-261): for the first size whose suffix pattern matches, rebuild
and unescape the full URL. -/
def photoLoop (root : List Char) (html : List Char) : List String → String
  | [] => ""
  | size :: sizes =>
    match findFirstSfx size html with
    | some g =>
      let full := root ++ ("shrink_" ++ size).data ++ g
      ⟨unicodeUnescape (full.length + 1) full⟩
    | none => photoLoop root html sizes

/-- `_extract_linkedin_photo_url` (scraper.py lines 245-263). -/
def _extract_linkedin_photo_url (html_text : String) : String :=
  match findFirstRoot html_text.data with
  | none => ""
  | some root => photoLoop root html_text.data ["400_400", "800_800", "200_200", "100_100"]

/-! ## Per-platform scrapers -/

/-- A scraper's result dictionary.  Only the LinkedIn scraper sets the extra
`_is_authenticated` key; it defaults to `false` elsewhere and the handler
never reads it. -/
structure ScrapeResult where
  name : String
  raw_description : String
  description : String
  image_url : String
  is_authenticated : Bool := false
deriving DecidableEq

/-- The `_SKIP` set of `_extract_linkedin_profile_text` (lines 205-215). -/
def linkedinSkipSet : List String :=
  ["contact info", "he/him", "she/her", "they/them", "message", "more",
   "connect", "follow", "pending"]

/-- The character class `[\s··Â]` of lines 229-231 (the `·`
escape is the same middle dot as the literal). -/
def degreeCls (c : Char) : Bool := pySpace c || c = '·' || c = 'Â'

/-- `re.match(r"^[\s··Â]*(1st|2nd|3rd|\d+th)", text)` as a test. -/
def degreeMark (l : List Char) : Bool :=
  let r := l.dropWhile degreeCls
  "1st".data.isPrefixOf r || "2nd".data.isPrefixOf r || "3rd".data.isPrefixOf r ||
    (let d := r.takeWhile Char.isDigit
     !d.isEmpty && "th".data.isPrefixOf (r.drop d.length))

/-- The per-paragraph filter of `_extract_linkedin_profile_text`
(lines 220-233): keep `text` as a profile field iff no `continue` fires. -/
def linkedinFieldKeep (name_lower : String) (text : String) : Bool :=
  !(text = "" || text.length < 3 || text.length > 200) &&
  !(linkedinSkipSet.contains (lowerS text)) &&
  !(name_lower ≠ "" && lowerS text = name_lower) &&
  !(degreeMark text.data) &&
  !((match text.data with
     | c :: _ => degreeCls c
     | [] => false) && text.length < 15)

/-- The `{headline, company, location}` result of
`_extract_linkedin_profile_text`. -/
structure ProfileText where
  headline : String := ""
  company : String := ""
  location : String := ""
deriving DecidableEq

/-- `_extract_linkedin_profile_text` (scraper.py lines 189-242).  The DOM
walk that locates the candidate paragraphs is the `Doc.contactPs` input; the
filtering and the first-three-fields assignment are translated directly. -/
def _extract_linkedin_profile_text (doc : Doc) (name : String) : ProfileText :=
  match doc.contactPs with
  | none => {}
  | some ps =>
    let name_lower := if name ≠ "" then lowerS name else ""
    let fields := ps.filter (linkedinFieldKeep name_lower)
    { headline := fields.headD "", company := (fields.drop 1).headD "",
      location := (fields.drop 2).headD "" }

/-- The authenticated-page fallback of `_scrape_linkedin` (lines 281-288):
the `(raw_desc, description)` pair after the profile-text mining, which on
success assigns the joined headline/company to both components. -/
def linkedinAuthDescPair (doc : Doc) (name raw_desc description : String) :
    String × String :=
  let profile_text := _extract_linkedin_profile_text doc name
  if profile_text.headline ≠ "" && description = "" then
    let parts := if profile_text.company ≠ "" then
        [profile_text.headline, profile_text.company]
      else [profile_text.headline]
    let d : String := ⟨joinL " · ".data (parts.map String.data)⟩
    (d, d)
  else (raw_desc, description)

/-- `_scrape_linkedin` (scraper.py lines 266-303). -/
def _scrape_linkedin (_url : String) (doc : Doc) : ScrapeResult :=
  let og := _extract_og_tags doc
  let tw := _extract_twitter_tags doc
  let raw_name0 := pyOr (dget og "title") (dget tw "title")
  let raw_name := if raw_name0 = "" then doc.titleTag.getD "" else raw_name0
  let name := _clean_name raw_name "linkedin"
  let raw_desc := pyOr (dget og "description") (dget tw "description")
  let description := _clean_linkedin_description raw_desc
  let is_authenticated_page := dget og "description" = ""
  let rd :=
    if is_authenticated_page then linkedinAuthDescPair doc name raw_desc description
    else (raw_desc, description)
  let image_url0 := pyOr (dget og "image") (dget tw "image")
  let image_url1 := if _is_valid_profile_image image_url0 then image_url0 else ""
  let image_url :=
    if image_url1 = "" && is_authenticated_page then
      _extract_linkedin_photo_url doc.rawHtml
    else image_url1
  { name := name, raw_description := rd.1, description := rd.2,
    image_url := image_url, is_authenticated := is_authenticated_page }

/-- `_scrape_twitter` (scraper.py lines 306-328). -/
def _scrape_twitter (_url : String) (doc : Doc) : ScrapeResult :=
  let og := _extract_og_tags doc
  let tw := _extract_twitter_tags doc
  let raw_name := pyOr (dget og "title") (dget tw "title")
  let name :=
    match matchNameHandle raw_name.data with
    | some g => (⟨stripL g⟩ : String)
    | none => _clean_name raw_name "twitter"
  let description := pyOr (dget og "description") (dget tw "description")
  let image_url0 := pyOr (pyOr (dget og "image") (dget tw "image:src")) (dget tw "image")
  let image_url :=
    if image_url0 ≠ "" && strContains image_url0 "_200x200" then
      pyReplace image_url0 "_200x200" "_400x400"
    else image_url0
  { name := name, raw_description := description, description := description,
    image_url := image_url }

/-- Scan for the closing quote of `["](.+?)["]`: the group is the shortest
non-empty newline-free run after the opening quote that a further quote
closes.  `acc` holds the group reversed. -/
def bioClose : List Char → List Char → Option (List Char)
  | [], _ => none
  | c :: rest, acc =>
    if c = '\n' then none
    else if c = '"' && acc ≠ [] then some acc.reverse
    else bioClose rest (c :: acc)

/-- `re.search(r'["](.+?)["]', raw_desc)` (the source writes the quote class
with the plain double quote repeated three times): group 1 of the leftmost
match. -/
def bioSearch : List Char → Option (List Char)
  | [] => none
  | c :: rest =>
    if c = '"' then
      match bioClose rest [] with
      | some content => some content
      | none => bioSearch rest
    else bioSearch rest

/-- The bio recovered from Instagram's plain `description` meta content
(scraper.py lines 354-360): the quoted substring when one exists, otherwise
the raw content; empty when the content is empty. -/
def instaBioDerive (raw_desc : String) : String :=
  if raw_desc ≠ "" then
    match bioSearch raw_desc.data with
    | some content => ⟨content⟩
    | none => raw_desc
  else ""

/-- `_scrape_instagram` (scraper.py lines 331-372). -/
def _scrape_instagram (_url : String) (doc : Doc) : ScrapeResult :=
  let og := _extract_og_tags doc
  let raw_name := dget og "title"
  let name :=
    match matchNameHandle raw_name.data with
    | some g => (⟨stripL g⟩ : String)
    | none => _clean_name raw_name "instagram"
  let raw_desc :=
    match doc.metas.find? (fun m => _meta_attr m "name" = "description") with
    | some m => _meta_attr m "content"
    | none => ""
  let description := instaBioDerive raw_desc
  let image_url0 := dget og "image"
  let image_url :=
    if image_url0 ≠ "" && strContains image_url0 "s100x100" then
      pyReplace image_url0 "s100x100" "s320x320"
    else image_url0
  { name := name, raw_description := raw_desc, description := description,
    image_url := image_url }

/-- The Facebook description rule (scraper.py lines 385-388): the OpenGraph
description unless it is empty or generic boilerplate. -/
def fbDescDerive (raw_desc : String) : String :=
  if raw_desc ≠ "" && !strContains raw_desc "is on Facebook" then raw_desc else ""

/-- `_scrape_facebook` (scraper.py lines 375-397). -/
def _scrape_facebook (_url : String) (doc : Doc) : ScrapeResult :=
  let og := _extract_og_tags doc
  let name := _clean_name (dget og "title") "facebook"
  let raw_desc := dget og "description"
  let description := fbDescDerive raw_desc
  let image_url := dget og "image"
  { name := name, raw_description := raw_desc, description := description,
    image_url := image_url }

/-- `_collect_page_images` (scraper.py lines 400-412).  `urljoin` is the
`urllib.parse.urljoin` collaborator, passed in as a parameter. -/
def _collect_page_images (urljoin : String → String → String) (doc : Doc)
    (base_url : String) : List (String × String) :=
  doc.imgs.filterMap (fun img =>
    let src := _meta_attr img "src"
    if src = "" || startsWithS src "data:" then none
    else some (urljoin base_url src, _meta_attr img "alt"))

/-- The profile-image keyword set of line 418. -/
def profileKeywords : List String :=
  ["profile", "photo", "headshot", "avatar", "portrait", "pfp"]

/-- `_find_profile_image_heuristic` (scraper.py lines 415-427): the first
image whose alt text contains the name, or whose source or alt text contains
a profile keyword. -/
def _find_profile_image_heuristic (images : List (String × String))
    (name : String) : String :=
  let name_lower := if name ≠ "" then lowerS name else ""
  match images.find? (fun img =>
    let src_lower := lowerS img.1
    let alt_lower := lowerS img.2
    (name_lower ≠ "" && strContains alt_lower name_lower) ||
      profileKeywords.any (fun kw => strContains src_lower kw || strContains alt_lower kw)) with
  | some img => img.1
  | none => ""

/-- The parsed `{name, context, image_url}` structure a successful LLM
extraction yields; a missing key reads as the (falsy) empty string, as the
source's `.get` calls do. -/
structure LlmOut where
  name : String := ""
  context : String := ""
  image_url : String := ""
deriving DecidableEq

/-- The name candidate of `_scrape_generic` after tag extraction and
cleaning (lines 435-439). -/
def genericName (doc : Doc) : String :=
  let og := _extract_og_tags doc
  let tw := _extract_twitter_tags doc
  let n0 := pyOr (dget og "title") (dget tw "title")
  let n1 := if n0 = "" then doc.titleTag.getD "" else n0
  _clean_name n1 "other"

/-- The description candidate of `_scrape_generic` (line 441). -/
def genericDescription (doc : Doc) : String :=
  pyOr (dget (_extract_og_tags doc) "description") (dget (_extract_twitter_tags doc) "description")

/-- The image candidate of `_scrape_generic` (line 442). -/
def genericImage (doc : Doc) : String :=
  pyOr (dget (_extract_og_tags doc) "image") (dget (_extract_twitter_tags doc) "image")

/-- `_scrape_generic` (scraper.py lines 430-483).  The LLM call is the
`llm` input (`extract_profile_from_html`'s return value for this page); the
second component records whether that call was reached. -/
def _scrape_generic (urljoin : String → String → String) (llm : Option LlmOut)
    (url : String) (doc : Doc) : ScrapeResult × Bool :=
  let name := genericName doc
  let description := genericDescription doc
  let image_url := genericImage doc
  let page_images := _collect_page_images urljoin doc url
  if name ≠ "" && description ≠ "" && image_url ≠ "" then
    ({ name := name, raw_description := description, description := description,
       image_url := image_url }, false)
  else
    let filled :=
      match llm with
      | some lr =>
        (if name = "" && lr.name ≠ "" then lr.name else name,
         if description = "" && lr.context ≠ "" then lr.context else description,
         if image_url = "" && lr.image_url ≠ "" then lr.image_url else image_url)
      | none => (name, description, image_url)
    let name2 :=
      if filled.1 = "" then
        (doc.headings.find? (fun t => 2 < t.length && t.length < 60)).getD ""
      else filled.1
    let image2 :=
      if filled.2.2 = "" then _find_profile_image_heuristic page_images name2
      else filled.2.2
    ({ name := name2, raw_description := filled.2.1, description := filled.2.1,
       image_url := image2 }, true)

/-! ## Image downloader (scraper.py lines 119-186)

The network is an explicit input: a `requests.get` call either raises a
`requests.RequestException` or yields a response with a status, the two
headers the code reads, and a body stream.  The stream is a list of chunk
sizes optionally followed by a mid-stream `RequestException` (`streamErr`),
which models `iter_content` raising after the temporary file exists.  The
`save_and_optimize` collaborator outcome is likewise an input: a filename, or
an exception — which is not a `RequestException`, so the source's handler
does not catch it. -/

/-- A `requests.get` response, reduced to what `_download_image` reads. -/
structure HttpResp where
  status : Nat
  contentType : String
  contentLength : Option String
  chunks : List Nat
  streamErr : Option String := none
deriving DecidableEq

/-- Outcome of the image fetch: a `RequestException` at request time, or a
response. -/
inductive FetchOutcome
  | exn (msg : String)
  | resp (r : HttpResp)
deriving DecidableEq

/-- The text of the `requests.HTTPError` that `raise_for_status` raises. -/
def httpErrorText (status : Nat) (url : String) : String :=
  toString status ++ (if status < 500 then " Client Error" else " Server Error") ++
    " for url: " ++ url

/-- `int(s)` on a header string: surrounding whitespace and a sign are
allowed; anything else raises `ValueError` (`none`). -/
def pyIntParse (s : String) : Option Int :=
  let l := stripL s.data
  let p : Int × List Char :=
    match l with
    | '-' :: t => (-1, t)
    | '+' :: t => (1, t)
    | t => (1, t)
  if p.2.isEmpty || !p.2.all Char.isDigit then none
  else some (p.1 * (p.2.foldl (fun acc c => acc * 10 + (c.toNat - '0'.toNat)) 0 : Nat))

/-- What `_download_image` leaves behind: its return value or the exception
it propagates, whether the temporary download file was ever created, and
whether it still exists when control leaves the function. -/
structure DlRes where
  result : Except String (Option String × Option String)
  tempCreated : Bool
  tempLeft : Bool
deriving DecidableEq

/-- `_download_image` (scraper.py lines 119-186).  `cookies` is accepted and,
as in the source, never influences the modelled outcome; `fetch` is the
network outcome for this URL; `save` is the `save_and_optimize` outcome. -/
def _download_image (image_url : String) (_cookies : List (String × String))
    (fetch : FetchOutcome) (save : Except String String) : DlRes :=
  if image_url = "" then
    ⟨.ok (none, some "No image URL found"), false, false⟩
  else if !_is_valid_profile_image image_url then
    ⟨.ok (none, some "Image appears to be a placeholder, not a real profile photo"),
      false, false⟩
  else
    match fetch with
    | .exn m => ⟨.ok (none, some ("Failed to download image: " ++ m)), false, false⟩
    | .resp r =>
      if 400 ≤ r.status && r.status < 600 then
        ⟨.ok (none, some ("Failed to download image: " ++ httpErrorText r.status image_url)),
          false, false⟩
      else if !startsWithS r.contentType "image/" then
        ⟨.ok (none, some ("URL returned " ++ r.contentType ++ ", not an image")),
          false, false⟩
      else if strContains r.contentType "svg" then
        ⟨.ok (none, some "Image is an SVG (LinkedIn default avatar), not a real photo"),
          false, false⟩
      else
        let clCheck : Except String Bool :=
          match r.contentLength with
          | none => .ok false
          | some s =>
            if s = "" then .ok false
            else
              match pyIntParse s with
              | some n => .ok (n < 1000)
              | none => .error ("ValueError: invalid literal for int() with base 10: " ++ s)
        match clCheck with
        | .error e => ⟨.error e, false, false⟩
        | .ok true =>
          ⟨.ok (none, some "Image is too small (likely a placeholder)"), false, false⟩
        | .ok false =>
          -- The temporary file is created here (line 165).
          match r.streamErr with
          | some m =>
            -- `iter_content` raised mid-stream: caught at line 185, but the
            -- temporary file is never removed on this path.
            ⟨.ok (none, some ("Failed to download image: " ++ m)), true, true⟩
          | none =>
            let total_bytes := r.chunks.foldl (· + ·) 0
            if total_bytes < 1000 then
              ⟨.ok (none, some "Downloaded image is too small (likely a placeholder)"),
                true, false⟩
            else
              match save with
              | .ok filename => ⟨.ok (some filename, none), true, false⟩
              | .error e =>
                -- `save_and_optimize` raised: the `finally` removes the
                -- temporary file, then the exception propagates (it is not a
                -- `requests.RequestException`).
                ⟨.error e, true, false⟩

/-! ## LLM fallback extractor (llm.py) -/

/-- A value `json.loads` can produce (Python maps objects to dicts, arrays
to lists, and scalars to str/int/bool/None). -/
inductive PyJson
  | jdict : List (String × PyJson) → PyJson
  | jlist : List PyJson → PyJson
  | jstr : String → PyJson
  | jint : Int → PyJson
  | jbool : Bool → PyJson
  | jnone : PyJson

/-- `_call_claude` (llm.py lines 45-69): `none` without a configured key; the
whole request/parse `try` block is the `net` input — the extracted response
text (to which line 67 applies `.strip()`), or any exception, which the
catch-all handler turns into `none`. -/
def _call_claude (apiKey : String) (net : Except String String) : Option String :=
  if apiKey = "" then none
  else
    match net with
    | .error _ => none
    | .ok t => some (pyStrip t)

/-- The code-fence stripping of `extract_profile_from_html`
(llm.py lines 113-116). -/
def stripFences (result : String) : String :=
  let cleaned := pyStrip result
  if startsWithS cleaned "```" then
    let c1 :=
      if strContains cleaned "\n" then
        ⟨(cleaned.data.dropWhile (fun c => c ≠ '\n')).drop 1⟩
      else dropS cleaned 3
    -- `cleaned.rsplit("```", 1)[0]`: everything before the last occurrence.
    rsplitBeforeLast c1
  else cleaned
where
  /-- `s.rsplit("```", 1)[0]` via a left scan remembering the last match. -/
  rsplitBeforeLast (s : String) : String :=
    match lastFenceFrom s.data 0 none with
    | some i => ⟨s.data.take i⟩
    | none => s
  lastFenceFrom : List Char → Nat → Option Nat → Option Nat
    | [], _, best => best
    | c :: rest, i, best =>
      lastFenceFrom rest (i + 1)
        (if "```".data.isPrefixOf (c :: rest) then some i else best)

/-- The `user_msg` built at llm.py lines 98-105, with the page text bound of
3000 characters and the image-list cap of 20 entries. -/
def llmUserMsg (text_content : String) (image_entries : List (String × String))
    (page_url : String) : String :=
  let images_desc := (⟨joinL "\n".data ((image_entries.take 20).map (fun e =>
    ("  - src=\"" ++ e.1 ++ "\" alt=\"" ++ e.2 ++ "\"").data))⟩ : String)
  "Page URL: " ++ page_url ++ "\n\n" ++
    "Page text:\n" ++ takeS text_content 3000 ++ "\n\n" ++
    "Images on page:\n" ++ images_desc

/-- `extract_profile_from_html` (llm.py lines 82-119).  `net` is the model
call's outcome as a function of the user message; `jloads` is `json.loads`,
whose failure is the `JSONDecodeError` the source catches. -/
def extract_profile_from_html (apiKey : String)
    (net : String → Except String String) (jloads : String → Except Unit PyJson)
    (text_content : String) (image_entries : List (String × String))
    (page_url : String) : Option PyJson :=
  if apiKey = "" then none
  else
    match _call_claude apiKey (net (llmUserMsg text_content image_entries page_url)) with
    | none => none
    | some result =>
      if result = "" then none
      else
        match jloads (stripFences result) with
        | .ok v => some v
        | .error _ => none

/-! ## Orchestrating scrape handler (scraper.py lines 486-599) -/

/-- The page fetch's response, reduced to what the handler reads: the status,
whether `"authwall" in resp.text.lower()`, and the parse of `resp.text`. -/
structure PageResp where
  status : Nat
  hasAuthwall : Bool := false
  doc : Doc
deriving DecidableEq

/-- Outcome of the page fetch. -/
inductive UrlFetch
  | exn (msg : String)
  | ok (page : PageResp)
deriving DecidableEq

/-- The success body assembled at lines 589-599. -/
structure ScrapeResponse where
  name : String
  face_filename : Option String
  context1 : String
  raw_description : String
  source : String
  source_url : String
  warnings : List String
deriving DecidableEq

/-- A route outcome: an error body with its HTTP status, or a success
body. -/
inductive HandlerOut
  | err (msg : String) (code : Nat)
  | ok (resp : ScrapeResponse)
deriving DecidableEq

/-- Scheme normalization (lines 494-495). -/
def normalizeUrl (url : String) : String :=
  if startsWithS url "http://" || startsWithS url "https://" then url
  else "https://" ++ url

/-- Twitter URL canonicalization (lines 499-502). -/
def canonicalUrl (platform url : String) : String :=
  if platform = "twitter" then
    match twitterHandleSearch url.data with
    | some h => "https://x.com/" ++ (⟨h⟩ : String)
    | none => url
  else url

/-- The platform dispatch of lines 548-557. -/
def dispatchScraper (urljoin : String → String → String) (llm : Option LlmOut)
    (platform url : String) (doc : Doc) : ScrapeResult :=
  if platform = "linkedin" then _scrape_linkedin url doc
  else if platform = "twitter" then _scrape_twitter url doc
  else if platform = "instagram" then _scrape_instagram url doc
  else if platform = "facebook" then _scrape_facebook url doc
  else (_scrape_generic urljoin llm url doc).1

/-- The warning appended for an image-pipeline failure (lines 568-580). -/
def imageWarning (platform img_error : String) : List String :=
  if img_error = "" then []
  else if strContains img_error "403" &&
      (platform = "linkedin" || platform = "instagram" || platform = "facebook") then
    ["Found the profile photo but the download was blocked. Copy the image from your browser (right-click > Copy Image) and paste it here with Cmd+V."]
  else [img_error]

/-- `scrape_url` (scraper.py lines 486-599).  Inputs: the request body's
`url` field; the `LINKEDIN_LI_AT` environment value; the page-fetch outcome;
the LLM extraction outcome for this page (as `_scrape_generic` consumes it);
the `urljoin` collaborator; the image-fetch outcome and `save_and_optimize`
outcome (as `_download_image` consumes them).  The value is the propagated
exception, if any (an `Except.error` from `_download_image` crosses the
handler uncaught), or the route outcome. -/
def scrape_url (urlField : Option String) (linkedinCookie : String)
    (fetch : UrlFetch) (llm : Option LlmOut) (urljoin : String → String → String)
    (imgFetch : FetchOutcome) (save : Except String String) :
    Except String HandlerOut :=
  let url0 := pyStrip (urlField.getD "")
  if url0 = "" then .ok (.err "URL is required" 400)
  else
    let url1 := normalizeUrl url0
    let platform := _detect_platform url1
    let url := canonicalUrl platform url1
    let cookies : List (String × String) :=
      if platform = "linkedin" && linkedinCookie ≠ "" then [("li_at", linkedinCookie)]
      else []
    match fetch with
    | .exn m => .ok (.err ("Failed to fetch URL: " ++ m) 400)
    | .ok page =>
      if page.status = 999 || (platform = "linkedin" && page.hasAuthwall) then
        let hint :=
          if linkedinCookie = "" then
            "Set LINKEDIN_LI_AT in your .env to enable authenticated scraping. Get this cookie from your browser dev tools (Application > Cookies > li_at)."
          else
            "Your LinkedIn session cookie may have expired. Refresh it from your browser."
        .ok (.err ("LinkedIn blocked this request (auth wall). " ++ hint) 400)
      else if page.status = 404 then
        let hint :=
          if platform = "twitter" then
            " This account may not exist or may have a different handle."
          else ""
        .ok (.err ("Page not found (404)." ++ hint) 400)
      else if page.status ≥ 400 then
        .ok (.err ("Page returned HTTP " ++ toString page.status) 400)
      else
        let result := dispatchScraper urljoin llm platform url page.doc
        let warnings0 : List String :=
          (if result.name = "" then ["Could not extract name from this page"] else []) ++
          (if result.description = "" then ["No description/bio found on this page"] else [])
        if result.image_url ≠ "" then
          let dl := _download_image result.image_url cookies imgFetch save
          match dl.result with
          | .error e => .error e
          | .ok (face, imgErr) =>
            let warnings := warnings0 ++ imageWarning platform (imgErr.getD "")
            let raw_context :=
              if result.description ≠ "" then takeS result.description 300 else ""
            .ok (.ok { name := result.name, face_filename := face,
                       context1 := raw_context,
                       raw_description := result.raw_description,
                       source := platform, source_url := url, warnings := warnings })
        else
          let warnings := warnings0 ++
            ["No profile image found. You can copy the photo from your browser and paste here with Cmd+V."]
          let raw_context :=
            if result.description ≠ "" then takeS result.description 300 else ""
          .ok (.ok { name := result.name, face_filename := none,
                     context1 := raw_context,
                     raw_description := result.raw_description,
                     source := platform, source_url := url, warnings := warnings })

/-- Projection to a success body, used to state request-level properties. -/
def respOf : Except String HandlerOut → Option ScrapeResponse
  | .ok (.ok r) => some r
  | _ => none

/-! ## Statement-side definitions -/

/-- The amended reading of the LinkedIn photo-extraction preference order,
written independently of the loop translation: the first size of
400×400, 800×800, 200×200, 100×100 whose suffix pattern matches anywhere in
the markup wins. -/
def linkedinPhotoSpec (html_text : String) : String :=
  match findFirstRoot html_text.data with
  | none => ""
  | some root =>
    match ["400_400", "800_800", "200_200", "100_100"].findSome?
        (fun size => (findFirstSfx size html_text.data).map
          (fun g => ("shrink_" ++ size).data ++ g)) with
    | some sfx => ⟨unicodeUnescape ((root ++ sfx).length + 1) (root ++ sfx)⟩
    | none => ""

/-- The `content-length` header, when present and non-empty, parses as an
integer — the condition under which line 148's `int()` cannot raise. -/
def clHeaderOk : FetchOutcome → Bool
  | .exn _ => true
  | .resp r =>
    match r.contentLength with
    | none => true
    | some s => s = "" || (pyIntParse s).isSome

/-- How each platform scraper's `description` is derived from its
`raw_description`: via the LinkedIn cleaner on LinkedIn's public path (on the
authenticated fallback the source back-assigns `raw_description` from the
constructed description, leaving the two equal), via the quoted-bio
extraction on Instagram, via the boilerplate rule on Facebook, and verbatim
on Twitter and generic pages. -/
def descDerivation (platform : String) (r : ScrapeResult) : Prop :=
  if platform = "linkedin" then
    (¬r.is_authenticated → r.description = _clean_linkedin_description r.raw_description) ∧
    (r.is_authenticated → r.description = _clean_linkedin_description r.raw_description ∨
      r.description = r.raw_description)
  else if platform = "instagram" then r.description = instaBioDerive r.raw_description
  else if platform = "facebook" then r.description = fbDescDerive r.raw_description
  else r.description = r.raw_description

/-! ## Concrete pages and inputs used by counterexamples and witnesses -/

/-- A tag whose attributes are all plain strings. -/
def sTag (attrs : List (String × String)) : STag :=
  ⟨attrs.map (fun p => (p.1, PyVal.str p.2))⟩

/-- A Twitter profile page whose OpenGraph image is the platform's default
avatar — a URL the validity filter rejects. -/
def twPlaceholderDoc : Doc :=
  { metas := [sTag [("property", "og:title"), ("content", "Erez Abrams (@eiis1000)")],
              sTag [("property", "og:description"), ("content", "physics bio")],
              sTag [("property", "og:image"),
                    ("content", "https://abs.twimg.com/sticky/default_profile.png")]] }

/-- A generic page with complete OpenGraph tags. -/
def genCompleteDoc : Doc :=
  { metas := [sTag [("property", "og:title"), ("content", "Ada Lovelace")],
              sTag [("property", "og:description"), ("content", "mathematician")],
              sTag [("property", "og:image"), ("content", "https://ex.com/ada.jpg")]] }

/-- Markup that carries a LinkedIn photo root and an 800×800 size suffix but
no 400×400, 200×200 or 100×100 suffix. -/
def h800Str : String :=
  "pre https://media.licdn.com/dms/image/v2/D4E/profile-displayphoto-shrink_800_800/0/17?e=2\\u0026v=beta post"

/-- An authenticated LinkedIn page (no OpenGraph description) whose
profile-card paragraph carries a labelled headline. -/
def liAuthJaneDoc : Doc :=
  { metas := [sTag [("property", "og:title"), ("content", "Jane Doe")]],
    contactPs := some ["Experience: Acme Corp"] }

/-- A 301-character description. -/
def longDescStr : String := ⟨List.replicate 301 'a'⟩

/-- A Twitter page whose OpenGraph description is 301 characters long. -/
def twLongDoc : Doc :=
  { metas := [sTag [("property", "og:title"), ("content", "Erez Abrams (@eiis1000)")],
              sTag [("property", "og:description"), ("content", longDescStr)]] }

/-- A page served from `box.com`, a host that merely contains `x.com` as a
substring. -/
def boxDoc : Doc :=
  { metas := [sTag [("property", "og:title"), ("content", "Some Person (@files)")]] }

/-- A model-call outcome returning a fenced JSON object. -/
def netFenced : String → Except String String :=
  fun _ => .ok "```json\n\x7b\"name\": \"A\"\x7d\n```"

/-- A concrete `json.loads` sufficient for the fenced response above. -/
def jloadsA (s : String) : Except Unit PyJson :=
  if s = "\x7b\"name\": \"A\"\x7d\n" then .ok (.jdict [("name", .jstr "A")]) else .error ()

/-! ## Supporting lemmas -/

theorem takeS_length_le (s : String) (n : Nat) : (takeS s n).length ≤ n := by
  show (s.data.take n).length ≤ n
  simp [List.length_take]

theorem joinL_cons_ne_nil (sep x : List Char) (rest : List (List Char))
    (hx : x ≠ []) : joinL sep (x :: rest) ≠ [] := by
  cases rest with
  | nil => simpa [joinL] using hx
  | cons y ys =>
    simp only [joinL]
    intro h
    exact hx (List.append_eq_nil.mp ((List.append_eq_nil.mp h).1)).1

theorem mem_linkedinCleanedParts_ne_nil {d2 p : List Char}
    (hp : p ∈ linkedinCleanedParts d2) : p ≠ [] := by
  unfold linkedinCleanedParts at hp
  obtain ⟨a, -, hfa⟩ := List.mem_filterMap.mp hp
  by_cases h1 : isLocConnLabel a = true
  · simp [h1] at hfa
  · by_cases h2 : (stripFieldLabel a).isEmpty = true
    · simp [h1, h2] at hfa
    · simp only [h1, Bool.false_eq_true, if_false, h2, Option.some.injEq] at hfa
      subst hfa
      simpa [List.isEmpty_iff] using h2

/-! ## C3 — temporary-file cleanup -/

/-- C3: the claim states that every exit path of `_download_image` reached
after the temporary file is created removes it.  Evaluating the embedding at
a response whose headers pass every check but whose body stream raises a
`requests.RequestException` after the file exists: the exception is caught
and turned into a failure reason (the claim's expected control flow), but the
temporary file is still present when the function returns. -/
theorem download_image_temp_leak :
    _download_image "https://example.com/photo.jpg" []
        (.resp ⟨200, "image/jpeg", some "4000", [1500],
          some "Connection broken: ConnectionResetError"⟩)
        (.ok "stored.jpg") =
      ⟨.ok (none, some "Failed to download image: Connection broken: ConnectionResetError"),
        true, true⟩ := by decide

/-! ## C4 — LinkedIn description cleaner emptiness -/

/-- C4 (counterexample): a non-empty input consisting only of the
`· Connect` boilerplate is cleaned to the empty string — the fallback
returns the boilerplate-stripped string, not the original trimmed input. -/
theorem clean_linkedin_desc_empties_nonempty_input :
    (" · Connect" : String) ≠ "" ∧ _clean_linkedin_description " · Connect" = "" := by
  decide

/-- C4 (amended): whenever the boilerplate-stripping substitutions leave a
string with non-whitespace content, the cleaner returns a non-empty string
(and when no segments survive it returns that stripped string trimmed — which
is empty exactly when the input was all boilerplate). -/
theorem clean_linkedin_desc_nonempty (desc : String)
    (h : stripL (linkedinBoilerplateStripped desc) ≠ []) :
    _clean_linkedin_description desc ≠ "" := by
  unfold _clean_linkedin_description
  by_cases hd : desc = ""
  · subst hd
    exact absurd (by decide) h
  · simp only [if_neg hd]
    cases hcp : linkedinCleanedParts (linkedinBoilerplateStripped desc) with
    | nil =>
      simp only [List.isEmpty_nil, if_true]
      intro hs
      exact h (by simpa [String.ext_iff] using hs)
    | cons p ps =>
      simp only [List.isEmpty_cons, if_false]
      intro hs
      have hp : p ≠ [] :=
        mem_linkedinCleanedParts_ne_nil (hcp ▸ List.mem_cons_self p ps)
      exact joinL_cons_ne_nil _ _ _ hp (by simpa [String.ext_iff] using hs)

/-- Witness for `clean_linkedin_desc_nonempty` at a concrete input. -/
theorem clean_linkedin_desc_nonempty_witness :
    stripL (linkedinBoilerplateStripped "Experience: Acme · 500+ connections") ≠ [] ∧
    _clean_linkedin_description "Experience: Acme · 500+ connections" ≠ "" :=
  ⟨by decide, clean_linkedin_desc_nonempty _ (by decide)⟩

/-! ## C1 — downloader contract -/

/-- C1 (counterexample): when the response's headers and size pass every
check but the stored bytes are not a decodable image, the
`save_and_optimize` collaborator raises (e.g. PIL's
`UnidentifiedImageError`), which is not a `requests.RequestException`; the
exception propagates out of `_download_image`, which therefore returns
neither a filename nor a failure reason. -/
theorem download_image_neither_counterexample :
    (_download_image "https://example.com/photo.jpg" []
        (.resp ⟨200, "image/jpeg", none, [2000], none⟩)
        (.error "UnidentifiedImageError: cannot identify image file")).result =
      .error "UnidentifiedImageError: cannot identify image file" := by decide

/-- C1 (amended): provided the optimize-and-store collaborator does not
itself raise and the `content-length` header (when present and non-empty)
parses as an integer, `_download_image` returns exactly one of a filename or
a failure reason; and a `requests.RequestException` at fetch time is caught
and returned as a failure reason, never propagated. -/
theorem download_image_exactly_one (image_url : String)
    (cookies : List (String × String)) (fetch : FetchOutcome)
    (save : Except String String) (hsave : ∀ e, save ≠ .error e)
    (hcl : clHeaderOk fetch = true) :
    (∃ fn er, (_download_image image_url cookies fetch save).result = .ok (fn, er) ∧
       ((fn ≠ none ∧ er = none) ∨ (fn = none ∧ er ≠ none))) ∧
    (∀ m, fetch = .exn m → image_url ≠ "" →
       _is_valid_profile_image image_url = true →
       (_download_image image_url cookies fetch save).result =
         .ok (none, some ("Failed to download image: " ++ m))) := by
  constructor
  · unfold _download_image
    repeat' (first | split | dsimp only)
    all_goals first
      | exact ⟨_, _, rfl, Or.inr ⟨rfl, by simp⟩⟩
      | exact ⟨_, _, rfl, Or.inl ⟨by simp, rfl⟩⟩
      | (exact absurd rfl (hsave _))
      | (exfalso; simp_all [clHeaderOk])
  · intro m hm hne hval
    subst hm
    simp [_download_image, hne, hval]

/-- Witness for `download_image_exactly_one` at a concrete input. -/
theorem download_image_exactly_one_witness :
    (∀ e, (Except.ok "stored.jpg" : Except String String) ≠ .error e) ∧
    clHeaderOk (.resp ⟨200, "image/jpeg", some "2000", [1500], none⟩) = true ∧
    ((∃ fn er, (_download_image "https://example.com/a.jpg" []
        (.resp ⟨200, "image/jpeg", some "2000", [1500], none⟩)
        (.ok "stored.jpg")).result = .ok (fn, er) ∧
       ((fn ≠ none ∧ er = none) ∨ (fn = none ∧ er ≠ none))) ∧
     (∀ m, (FetchOutcome.resp ⟨200, "image/jpeg", some "2000", [1500], none⟩) = .exn m →
        ("https://example.com/a.jpg" : String) ≠ "" →
        _is_valid_profile_image "https://example.com/a.jpg" = true →
        (_download_image "https://example.com/a.jpg" []
          (.resp ⟨200, "image/jpeg", some "2000", [1500], none⟩)
          (.ok "stored.jpg")).result =
          .ok (none, some ("Failed to download image: " ++ m)))) :=
  ⟨fun _ h => Except.noConfusion h, by decide,
   download_image_exactly_one "https://example.com/a.jpg" []
     (.resp ⟨200, "image/jpeg", some "2000", [1500], none⟩) (.ok "stored.jpg")
     (fun _ h => Except.noConfusion h) (by decide)⟩

/-! ## C2 — image-validity filtering before download -/

/-- C2 (counterexample): the Twitter scraper emits the OpenGraph image
verbatim, so a `ScrapeResult.image_url` can be non-empty while failing the
placeholder filter; the handler then hands exactly that URL to
`_download_image` (whose rejection reason surfaces in the response's
warnings), so the URL did not pass the filter before being handed over. -/
theorem scraper_unfiltered_image_counterexample :
    (_scrape_twitter "https://x.com/eiis1000" twPlaceholderDoc).image_url =
      "https://abs.twimg.com/sticky/default_profile.png" ∧
    _is_valid_profile_image "https://abs.twimg.com/sticky/default_profile.png" = false ∧
    respOf (scrape_url (some "https://x.com/eiis1000") "" (.ok ⟨200, false, twPlaceholderDoc⟩)
        none (fun _ s => s) (.exn "unused") (.ok "f")) =
      some { name := "Erez Abrams", face_filename := none, context1 := "physics bio",
             raw_description := "physics bio", source := "twitter",
             source_url := "https://x.com/eiis1000",
             warnings := ["Image appears to be a placeholder, not a real profile photo"] } := by
  decide

/-- C2 (amended): the scrapers may emit image URLs that have not passed the
validity filter; the filter is instead the downloader's first step, so any
non-empty candidate failing it is rejected with the placeholder failure
reason before any fetch, temporary file, or store happens. -/
theorem download_image_filters_invalid (image_url : String)
    (cookies : List (String × String)) (fetch : FetchOutcome)
    (save : Except String String) (hne : image_url ≠ "")
    (hinv : _is_valid_profile_image image_url = false) :
    _download_image image_url cookies fetch save =
      ⟨.ok (none, some "Image appears to be a placeholder, not a real profile photo"),
        false, false⟩ := by
  simp [_download_image, hne, hinv]

/-- Witness for `download_image_filters_invalid` at a concrete input. -/
theorem download_image_filters_invalid_witness :
    ("https://cdn.example.com/ghost-person.png" : String) ≠ "" ∧
    _is_valid_profile_image "https://cdn.example.com/ghost-person.png" = false ∧
    _download_image "https://cdn.example.com/ghost-person.png" [] (.exn "unused") (.ok "f") =
      ⟨.ok (none, some "Image appears to be a placeholder, not a real profile photo"),
        false, false⟩ :=
  ⟨by decide, by decide,
   download_image_filters_invalid "https://cdn.example.com/ghost-person.png" []
     (.exn "unused") (.ok "f") (by decide) (by decide)⟩

/-! ## C5 — LLM fallback extractor -/

/-- C5: `extract_profile_from_html` signals unavailability (`none`) when no
API credential is configured and when the model call fails, and otherwise
returns `none` or exactly the structure parsed from the (fence-stripped,
stripped) response text; every modelled outcome is a return, never a raised
error — each exception site in the source sits under a handler that matches
it (`except Exception` around the call, `except (JSONDecodeError,
IndexError)` around the parse). -/
theorem extract_profile_unavailable_or_parsed (apiKey : String)
    (net : String → Except String String) (jloads : String → Except Unit PyJson)
    (text_content : String) (image_entries : List (String × String))
    (page_url : String) :
    (apiKey = "" →
      extract_profile_from_html apiKey net jloads text_content image_entries page_url = none) ∧
    (∀ e, net (llmUserMsg text_content image_entries page_url) = .error e →
      extract_profile_from_html apiKey net jloads text_content image_entries page_url = none) ∧
    (extract_profile_from_html apiKey net jloads text_content image_entries page_url = none ∨
      ∃ t v, net (llmUserMsg text_content image_entries page_url) = .ok t ∧
        jloads (stripFences (pyStrip t)) = .ok v ∧
        extract_profile_from_html apiKey net jloads text_content image_entries page_url = some v) := by
  refine ⟨fun hk => by simp [extract_profile_from_html, hk], ?_, ?_⟩
  · intro e he
    by_cases hk : apiKey = ""
    · simp [extract_profile_from_html, hk]
    · simp [extract_profile_from_html, _call_claude, hk, he]
  · by_cases hk : apiKey = ""
    · exact Or.inl (by simp [extract_profile_from_html, hk])
    · cases hnet : net (llmUserMsg text_content image_entries page_url) with
      | error e =>
        exact Or.inl (by simp [extract_profile_from_html, _call_claude, hk, hnet])
      | ok t =>
        by_cases ht : pyStrip t = ""
        · exact Or.inl (by simp [extract_profile_from_html, _call_claude, hk, hnet, ht])
        · cases hj : jloads (stripFences (pyStrip t)) with
          | error u =>
            exact Or.inl (by
              simp [extract_profile_from_html, _call_claude, hk, hnet, ht, hj])
          | ok v =>
            exact Or.inr ⟨t, v, rfl, hj, by
              simp [extract_profile_from_html, _call_claude, hk, hnet, ht, hj]⟩

/-- Witness for `extract_profile_unavailable_or_parsed` at a concrete
fenced response, with the parsed structure evaluated explicitly. -/
theorem extract_profile_unavailable_or_parsed_witness :
    ((("k" : String) = "" →
       extract_profile_from_html "k" netFenced jloadsA "text" [] "u" = none) ∧
     (∀ e, netFenced (llmUserMsg "text" [] "u") = .error e →
       extract_profile_from_html "k" netFenced jloadsA "text" [] "u" = none) ∧
     (extract_profile_from_html "k" netFenced jloadsA "text" [] "u" = none ∨
       ∃ t v, netFenced (llmUserMsg "text" [] "u") = .ok t ∧
         jloadsA (stripFences (pyStrip t)) = .ok v ∧
         extract_profile_from_html "k" netFenced jloadsA "text" [] "u" = some v)) ∧
    extract_profile_from_html "k" netFenced jloadsA "text" [] "u" =
      some (.jdict [("name", .jstr "A")]) :=
  ⟨extract_profile_unavailable_or_parsed "k" netFenced jloadsA "text" [] "u", rfl⟩

/-! ## C6 — complete OpenGraph tags bypass the LLM -/

/-- C6: when the cleaned name, the description and the image candidate
extracted from the OpenGraph/Twitter-card tags are all non-empty,
`_scrape_generic` returns exactly those three fields (the name cleaned, the
description doubling as the raw description) and the LLM extraction call is
never reached. -/
theorem scrape_generic_og_complete_bypasses_llm
    (urljoin : String → String → String) (llm : Option LlmOut) (url : String)
    (doc : Doc) (hn : genericName doc ≠ "") (hd : genericDescription doc ≠ "")
    (hi : genericImage doc ≠ "") :
    _scrape_generic urljoin llm url doc =
      ({ name := genericName doc, raw_description := genericDescription doc,
         description := genericDescription doc, image_url := genericImage doc },
       false) := by
  simp [_scrape_generic, hn, hd, hi]

/-- Witness for `scrape_generic_og_complete_bypasses_llm` on a page with
complete OpenGraph tags, against an LLM stub that would have filled every
field had it been consulted. -/
theorem scrape_generic_og_complete_bypasses_llm_witness :
    genericName genCompleteDoc = "Ada Lovelace" ∧
    genericDescription genCompleteDoc = "mathematician" ∧
    genericImage genCompleteDoc = "https://ex.com/ada.jpg" ∧
    _scrape_generic (fun _ s => s)
        (some { name := "LLMNAME", context := "LLMCTX", image_url := "LLMIMG" })
        "https://example.com/p" genCompleteDoc =
      ({ name := genericName genCompleteDoc,
         raw_description := genericDescription genCompleteDoc,
         description := genericDescription genCompleteDoc,
         image_url := genericImage genCompleteDoc }, false) :=
  ⟨by decide, by decide, by decide,
   scrape_generic_og_complete_bypasses_llm (fun _ s => s)
     (some { name := "LLMNAME", context := "LLMCTX", image_url := "LLMIMG" })
     "https://example.com/p" genCompleteDoc (by decide) (by decide) (by decide)⟩

/-! ## C7 — LinkedIn photo size preference order -/

/-- C7 (counterexample): on markup carrying a photo root and an 800×800
suffix only, every size in the claimed 400×400-down-to-100×100 range fails
to match, yet the extraction returns a (non-empty) 800×800 URL — the code's
preference order is 400×400, 800×800, 200×200, 100×100. -/
theorem linkedin_photo_800_counterexample :
    findFirstSfx "400_400" h800Str.data = none ∧
    findFirstSfx "200_200" h800Str.data = none ∧
    findFirstSfx "100_100" h800Str.data = none ∧
    _extract_linkedin_photo_url h800Str =
      "https://media.licdn.com/dms/image/v2/D4E/profile-displayphoto-shrink_800_800/0/17?e=2&v=beta" := by
  decide

theorem photoLoop_eq_findSome (root html : List Char) (sizes : List String) :
    photoLoop root html sizes =
      (match sizes.findSome? (fun size => (findFirstSfx size html).map
          (fun g => ("shrink_" ++ size).data ++ g)) with
       | some sfx => (⟨unicodeUnescape ((root ++ sfx).length + 1) (root ++ sfx)⟩ : String)
       | none => "") := by
  induction sizes with
  | nil => rfl
  | cons s rest ih =>
    simp only [photoLoop, List.findSome?]
    cases hfs : findFirstSfx s html with
    | none => simpa [hfs] using ih
    | some g => simp [hfs, List.append_assoc]

/-- C7 (amended): photo extraction searches the raw markup for the CDN root
fragment plus a size-suffix fragment, trying sizes 400×400, 800×800,
200×200, 100×100 in that preference order, and reconstructs and unescapes
the full URL of the first size that matches (empty when no root or no size
matches) — stated as agreement with the independently written
`linkedinPhotoSpec`. -/
theorem linkedin_photo_preference_order (html_text : String) :
    _extract_linkedin_photo_url html_text = linkedinPhotoSpec html_text := by
  unfold _extract_linkedin_photo_url linkedinPhotoSpec
  cases findFirstRoot html_text.data with
  | none => rfl
  | some root => exact photoLoop_eq_findSome root html_text.data _

/-! ## Shared handler-level lemmas -/

theorem linkedinAuthDescPair_cases (doc : Doc) (name raw_desc description : String) :
    linkedinAuthDescPair doc name raw_desc description = (raw_desc, description) ∨
    (linkedinAuthDescPair doc name raw_desc description).2 =
      (linkedinAuthDescPair doc name raw_desc description).1 := by
  unfold linkedinAuthDescPair
  dsimp only
  by_cases hfire : (decide ((_extract_linkedin_profile_text doc name).headline ≠ "") &&
      decide (description = "")) = true
  · rw [if_pos hfire]; right; rfl
  · rw [if_neg hfire]; left; rfl

theorem scrape_linkedin_descDerivation (url : String) (doc : Doc) :
    (¬(_scrape_linkedin url doc).is_authenticated →
      (_scrape_linkedin url doc).description =
        _clean_linkedin_description (_scrape_linkedin url doc).raw_description) ∧
    ((_scrape_linkedin url doc).is_authenticated →
      (_scrape_linkedin url doc).description =
        _clean_linkedin_description (_scrape_linkedin url doc).raw_description ∨
      (_scrape_linkedin url doc).description = (_scrape_linkedin url doc).raw_description) := by
  unfold _scrape_linkedin
  dsimp only
  by_cases hauth : dget (_extract_og_tags doc) "description" = ""
  · rw [if_pos hauth]
    rcases linkedinAuthDescPair_cases doc
        (_clean_name (if pyOr (dget (_extract_og_tags doc) "title")
            (dget (_extract_twitter_tags doc) "title") = ""
          then doc.titleTag.getD ""
          else pyOr (dget (_extract_og_tags doc) "title")
            (dget (_extract_twitter_tags doc) "title")) "linkedin")
        (pyOr (dget (_extract_og_tags doc) "description")
          (dget (_extract_twitter_tags doc) "description"))
        (_clean_linkedin_description (pyOr (dget (_extract_og_tags doc) "description")
          (dget (_extract_twitter_tags doc) "description")))
      with hc | hc
    · rw [hc]
      exact ⟨fun hna => absurd (by simp [hauth]) hna, fun _ => Or.inl rfl⟩
    · rw [hc]
      exact ⟨fun hna => absurd (by simp [hauth]) hna, fun _ => Or.inr rfl⟩
  · rw [if_neg hauth]
    exact ⟨fun _ => rfl, fun hc => absurd (by simpa using hc) hauth⟩

theorem scrape_generic_desc_eq_raw (urljoin : String → String → String)
    (llm : Option LlmOut) (url : String) (doc : Doc) :
    ((_scrape_generic urljoin llm url doc).1).description =
      ((_scrape_generic urljoin llm url doc).1).raw_description := by
  unfold _scrape_generic
  dsimp only
  split <;> rfl

theorem dispatch_descDerivation (urljoin : String → String → String)
    (llm : Option LlmOut) (platform url : String) (doc : Doc) :
    descDerivation platform (dispatchScraper urljoin llm platform url doc) := by
  by_cases h1 : platform = "linkedin"
  · subst h1
    simpa [descDerivation, dispatchScraper] using scrape_linkedin_descDerivation url doc
  · by_cases h2 : platform = "instagram"
    · subst h2
      simp only [descDerivation, dispatchScraper]
      norm_num
      rfl
    · by_cases h3 : platform = "facebook"
      · subst h3
        simp only [descDerivation, dispatchScraper]
        norm_num
        rfl
      · by_cases h4 : platform = "twitter"
        · subst h4
          simp only [descDerivation, dispatchScraper]
          norm_num
          rfl
        · simp only [descDerivation, dispatchScraper, h1, h2, h3, h4, if_false]
          exact scrape_generic_desc_eq_raw urljoin llm url doc

theorem scrape_url_success_fields (urlField : Option String) (ck : String)
    (fetch : UrlFetch) (llm : Option LlmOut) (urljoin : String → String → String)
    (imgFetch : FetchOutcome) (save : Except String String) (resp : ScrapeResponse)
    (h : scrape_url urlField ck fetch llm urljoin imgFetch save = .ok (.ok resp)) :
    ∃ page, fetch = .ok page ∧
      (let url1 := normalizeUrl (pyStrip (urlField.getD ""))
       let platform := _detect_platform url1
       let r := dispatchScraper urljoin llm platform (canonicalUrl platform url1) page.doc
       resp.context1 = (if r.description ≠ "" then takeS r.description 300 else "") ∧
       resp.raw_description = r.raw_description ∧
       resp.name = r.name ∧
       resp.source = platform) := by
  unfold scrape_url at h
  dsimp only at h
  split at h
  · exact absurd h (by simp)
  · split at h
    · exact absurd h (by simp)
    · rename_i page
      refine ⟨page, rfl, ?_⟩
      split at h
      · exact absurd h (by simp)
      · split at h
        · exact absurd h (by simp)
        · split at h
          · exact absurd h (by simp)
          · split at h
            · split at h
              · exact absurd h (by simp)
              · simp only [Except.ok.injEq, HandlerOut.ok.injEq] at h
                subst h
                exact ⟨rfl, rfl, rfl, rfl⟩
            · simp only [Except.ok.injEq, HandlerOut.ok.injEq] at h
              subst h
              exact ⟨rfl, rfl, rfl, rfl⟩

/-! ## C8 — context1 truncation and description derivation -/

/-- C8 (counterexample): on an authenticated LinkedIn page the
profile-text fallback assigns the constructed description to
`raw_description` as well, so the success response's description
(`context1`, here shorter than 300 characters) is *not* the LinkedIn cleaner
applied to `raw_description`: the cleaner would strip the
`Experience:` label. -/
theorem scrape_linkedin_auth_not_cleaner_counterexample :
    respOf (scrape_url (some "https://www.linkedin.com/in/jane") ""
        (.ok ⟨200, false, liAuthJaneDoc⟩) none (fun _ s => s) (.exn "unused") (.ok "f")) =
      some { name := "Jane Doe", face_filename := none,
             context1 := "Experience: Acme Corp",
             raw_description := "Experience: Acme Corp", source := "linkedin",
             source_url := "https://www.linkedin.com/in/jane",
             warnings := ["No profile image found. You can copy the photo from your browser and paste here with Cmd+V."] } ∧
    _clean_linkedin_description "Experience: Acme Corp" = "Acme Corp" ∧
    ("Experience: Acme Corp" : String) ≠ "Acme Corp" := by decide

/-- C8 (amended): every success response's `context1` is the scraper's
description truncated at 300 characters (hence never longer than 300), and
that description is derived from `raw_description` by the platform-specific
rule of `descDerivation` — the platform cleaner on every path except
LinkedIn's authenticated fallback, where the two fields are equal instead. -/
theorem scrape_url_truncation_and_derivation (urlField : Option String) (ck : String)
    (fetch : UrlFetch) (llm : Option LlmOut) (urljoin : String → String → String)
    (imgFetch : FetchOutcome) (save : Except String String) (resp : ScrapeResponse)
    (h : scrape_url urlField ck fetch llm urljoin imgFetch save = .ok (.ok resp)) :
    resp.context1.length ≤ 300 ∧
    ∃ page, fetch = .ok page ∧
      (let url1 := normalizeUrl (pyStrip (urlField.getD ""))
       let platform := _detect_platform url1
       let r := dispatchScraper urljoin llm platform (canonicalUrl platform url1) page.doc
       resp.context1 = (if r.description ≠ "" then takeS r.description 300 else "") ∧
       descDerivation platform r) := by
  obtain ⟨page, hpage, hctx, hraw, hname, hsrc⟩ :=
    scrape_url_success_fields urlField ck fetch llm urljoin imgFetch save resp h
  refine ⟨?_, page, hpage, hctx, dispatch_descDerivation urljoin llm _ _ page.doc⟩
  rw [hctx]
  split
  · exact takeS_length_le _ _
  · simp

/-- Witness for `scrape_url_truncation_and_derivation` at a concrete
authenticated LinkedIn request. -/
theorem scrape_url_truncation_and_derivation_witness :
    scrape_url (some "https://www.linkedin.com/in/jane") ""
        (.ok ⟨200, false, liAuthJaneDoc⟩) none (fun _ s => s) (.exn "unused") (.ok "f") =
      .ok (.ok { name := "Jane Doe", face_filename := none,
                 context1 := "Experience: Acme Corp",
                 raw_description := "Experience: Acme Corp", source := "linkedin",
                 source_url := "https://www.linkedin.com/in/jane",
                 warnings := ["No profile image found. You can copy the photo from your browser and paste here with Cmd+V."] }) ∧
    (({ name := "Jane Doe", face_filename := none,
        context1 := "Experience: Acme Corp",
        raw_description := "Experience: Acme Corp", source := "linkedin",
        source_url := "https://www.linkedin.com/in/jane",
        warnings := ["No profile image found. You can copy the photo from your browser and paste here with Cmd+V."] } : ScrapeResponse).context1.length ≤ 300 ∧
     ∃ page, (UrlFetch.ok ⟨200, false, liAuthJaneDoc⟩) = .ok page ∧
       (let url1 := normalizeUrl (pyStrip ((some "https://www.linkedin.com/in/jane").getD ""))
        let platform := _detect_platform url1
        let r := dispatchScraper (fun _ s => s) none platform (canonicalUrl platform url1) page.doc
        ({ name := "Jane Doe", face_filename := none,
           context1 := "Experience: Acme Corp",
           raw_description := "Experience: Acme Corp", source := "linkedin",
           source_url := "https://www.linkedin.com/in/jane",
           warnings := ["No profile image found. You can copy the photo from your browser and paste here with Cmd+V."] } : ScrapeResponse).context1 =
          (if r.description ≠ "" then takeS r.description 300 else "") ∧
        descDerivation platform r)) :=
  ⟨by decide,
   scrape_url_truncation_and_derivation (some "https://www.linkedin.com/in/jane") ""
     (.ok ⟨200, false, liAuthJaneDoc⟩) none (fun _ s => s) (.exn "unused") (.ok "f") _
     (by decide)⟩

/-! ## C9 — raw_description is verbatim -/

/-- C9: the success response's `raw_description` is exactly the platform
scraper's `raw_description` — the handler applies neither truncation nor
cleaning to it — and on a concrete page with a 301-character OpenGraph
description the response's `raw_description` exceeds 300 characters while
`context1` does not. -/
theorem scrape_url_raw_description_verbatim :
    (∀ (urlField : Option String) (ck : String) (fetch : UrlFetch)
       (llm : Option LlmOut) (urljoin : String → String → String)
       (imgFetch : FetchOutcome) (save : Except String String)
       (resp : ScrapeResponse),
       scrape_url urlField ck fetch llm urljoin imgFetch save = .ok (.ok resp) →
       ∃ page, fetch = .ok page ∧
         resp.raw_description =
           (dispatchScraper urljoin llm
             (_detect_platform (normalizeUrl (pyStrip (urlField.getD ""))))
             (canonicalUrl (_detect_platform (normalizeUrl (pyStrip (urlField.getD ""))))
               (normalizeUrl (pyStrip (urlField.getD "")))) page.doc).raw_description) ∧
    (∃ resp, scrape_url (some "https://x.com/longbio") "" (.ok ⟨200, false, twLongDoc⟩)
        none (fun _ s => s) (.exn "unused") (.ok "f") = .ok (.ok resp) ∧
      300 < resp.raw_description.length ∧ resp.context1.length ≤ 300) := by
  constructor
  · intro urlField ck fetch llm urljoin imgFetch save resp h
    obtain ⟨page, hpage, hctx, hraw, hname, hsrc⟩ :=
      scrape_url_success_fields urlField ck fetch llm urljoin imgFetch save resp h
    exact ⟨page, hpage, hraw⟩
  · exact ⟨_, rfl, by decide, by decide⟩

/-- Witness for `scrape_url_raw_description_verbatim`, discharging its inner
hypothesis at the long-description Twitter page. -/
theorem scrape_url_raw_description_verbatim_witness :
    ∃ resp, scrape_url (some "https://x.com/longbio") "" (.ok ⟨200, false, twLongDoc⟩)
        none (fun _ s => s) (.exn "unused") (.ok "f") = .ok (.ok resp) ∧
      ∃ page, (UrlFetch.ok ⟨200, false, twLongDoc⟩) = .ok page ∧
        resp.raw_description =
          (dispatchScraper (fun _ s => s) none
            (_detect_platform (normalizeUrl (pyStrip ((some "https://x.com/longbio").getD ""))))
            (canonicalUrl (_detect_platform (normalizeUrl (pyStrip ((some "https://x.com/longbio").getD ""))))
              (normalizeUrl (pyStrip ((some "https://x.com/longbio").getD "")))) page.doc).raw_description :=
  ⟨_, rfl,
   scrape_url_raw_description_verbatim.1 (some "https://x.com/longbio") ""
     (.ok ⟨200, false, twLongDoc⟩) none (fun _ s => s) (.exn "unused") (.ok "f") _ rfl⟩

/-! ## C10 — substring platform classification -/

/-- C10: platform classification is a case-insensitive substring match over
the whole URL, so `https://box.com/files` — whose host merely contains
`x.com` — is classified as twitter and the handler rewrites the fetched URL
to `https://x.com/files`, discarding the original host; the end-to-end
response reports source `twitter` and the rewritten source URL. -/
theorem detect_platform_substring_rewrite :
    _detect_platform "https://box.com/files" = "twitter" ∧
    canonicalUrl "twitter" "https://box.com/files" = "https://x.com/files" ∧
    respOf (scrape_url (some "box.com/files") "" (.ok ⟨200, false, boxDoc⟩) none
        (fun _ s => s) (.exn "unused") (.ok "f")) =
      some { name := "Some Person", face_filename := none, context1 := "",
             raw_description := "", source := "twitter",
             source_url := "https://x.com/files",
             warnings := ["No description/bio found on this page",
                          "No profile image found. You can copy the photo from your browser and paste here with Cmd+V."] } := by
  decide

end NF
